import Mathlib

/-!
# Verification of trieste's decoupled deep-GP trajectory sampler

Shallow embedding of `src/trieste/models/gpflux/sampler.py` (the decoupled
Matheron-rule trajectory sampling subsystem) and of
`DeepGaussianProcess.update` from `src/trieste/models/gpflux/models.py`.

Modelling conventions:

* TensorFlow tensors are modelled as structures carrying explicit dimensions
  and a total entry function over `ℚ` (exact arithmetic stands in for the
  float computations; floating-point rounding itself is out of scope).
* `tf.random.normal` / the library's feature samplers are modelled as reads
  from an explicit random stream (`RNG`): each draw consumes positions of an
  ambient i.i.d. sequence.  Distributional facts (normality, spectral
  density) live at this interface; the code under verification only moves
  these draws around.
* `tf.Variable` mutation is modelled by explicit state passing.  A python
  closure is modelled by a structure holding exactly the values the source
  closure captures by value (`Kmm`, `whiten`, `M`, `P`, `num_features`);
  values the closure reads through live object references (`q_mu`, `q_sqrt`,
  the inducing points and the feature functions) are passed at call time.
* `gpflux.math.compute_A_inv_b` (external library) solves `A x = b` via a
  Cholesky factorization; it is modelled by its interface semantics, the
  exact linear solve.  `tf.linalg.cholesky` is modelled by an abstract
  function argument `chol`, and the cosine/scaling applied by the external
  `RandomFourierFeaturesCosine` basis by an abstract scalar map `act`.
* Error taxonomy: the spec's names are used for the conditions the source
  raises (`ValueError` for an unsupported layer kind ↦ `unsupported`,
  `tf.debugging.assert_positive` ↦ `invalidArgument`,
  `tf.debugging.assert_equal` on the batch dimension and the `ValueError`s
  in `DeepGaussianProcess.update` ↦ `shapeMismatch`, the
  `tf.debugging.Assert isinstance` checks ↦ `typeMismatch`).
-/

/-- A rank-2 tensor: explicit dimensions and an entry function. -/
structure Tensor2 where
  n1 : ℕ
  n2 : ℕ
  entry : ℕ → ℕ → ℚ

/-- A rank-3 tensor: explicit dimensions and an entry function. -/
structure Tensor3 where
  n1 : ℕ
  n2 : ℕ
  n3 : ℕ
  entry : ℕ → ℕ → ℕ → ℚ

/-- The ambient stream of i.i.d. random scalar draws together with the next
unread position.  `tf.random.normal` consumes positions of this stream. -/
structure RNG where
  stream : ℕ → ℚ
  pos : ℕ

/-- Advance the stream past `k` consumed draws. -/
def RNG.advance (r : RNG) (k : ℕ) : RNG := ⟨r.stream, r.pos + k⟩

/-- Draw an `[m, n]` tensor of fresh scalars (models `tf.random.normal`). -/
def RNG.normal2 (r : RNG) (m n : ℕ) : Tensor2 × RNG :=
  (⟨m, n, fun i j => r.stream (r.pos + (i * n + j))⟩, r.advance (m * n))

/-- Draw an `[a, b, c]` tensor of fresh scalars (models `tf.random.normal`). -/
def RNG.normal3 (r : RNG) (a b c : ℕ) : Tensor3 × RNG :=
  (⟨a, b, c, fun i j k => r.stream (r.pos + ((i * b + j) * c + k))⟩, r.advance (a * b * c))

/-- `tf.linalg.matrix_transpose` on a rank-2 tensor. -/
def transposeT2 (A : Tensor2) : Tensor2 := ⟨A.n2, A.n1, fun i j => A.entry j i⟩

/-- Elementwise addition (TensorFlow `+` on equal-shaped tensors). -/
def addT2 (A B : Tensor2) : Tensor2 := ⟨A.n1, A.n2, fun i j => A.entry i j + B.entry i j⟩

/-- Scalar multiple of a rank-2 tensor. -/
def scaleT2 (c : ℚ) (A : Tensor2) : Tensor2 := ⟨A.n1, A.n2, fun i j => c * A.entry i j⟩

/-- `tf.eye m`. -/
def eyeT2 (m : ℕ) : Tensor2 := ⟨m, m, fun i j => if i = j ∧ i < m then 1 else 0⟩

/-- `tf.concat` along the last axis of two rank-2 tensors. -/
def concatCols (A B : Tensor2) : Tensor2 :=
  ⟨A.n1, A.n2 + B.n2, fun i j => if j < A.n2 then A.entry i j else B.entry i (j - A.n2)⟩

/-- `tf.concat` along axis 1 of two rank-3 tensors. -/
def concatAxis1 (A B : Tensor3) : Tensor3 :=
  ⟨A.n1, A.n2 + B.n2, A.n3, fun b j p => if j < A.n2 then A.entry b j p else B.entry b (j - A.n2) p⟩

/-- View a rank-2 tensor as a Mathlib matrix of the given dimensions. -/
def toMat (m n : ℕ) (t : Tensor2) : Matrix (Fin m) (Fin n) ℚ :=
  Matrix.of fun i j => t.entry i j

/-- Repackage a Mathlib matrix as a rank-2 tensor. -/
def ofMat (m n : ℕ) (A : Matrix (Fin m) (Fin n) ℚ) : Tensor2 :=
  ⟨m, n, fun i j => if h : i < m ∧ j < n then A ⟨i, h.1⟩ ⟨j, h.2⟩ else 0⟩

/-- Executable inverse of a square rational matrix (agrees with `A⁻¹` when
`A.det ≠ 0`). -/
def qInv {m : ℕ} (A : Matrix (Fin m) (Fin m) ℚ) : Matrix (Fin m) (Fin m) ℚ :=
  A.det⁻¹ • A.adjugate

/-- `gpflux.math.compute_A_inv_b` (external library): solves `A x = b` for a
square positive-definite `A` via its Cholesky factorization, i.e. computes
`A⁻¹ b`.  Modelled by the exact linear solve it implements. -/
def compute_A_inv_b (A b : Tensor2) : Tensor2 :=
  ofMat A.n1 b.n2 (qInv (toMat A.n1 A.n1 A) * toMat A.n1 b.n2 b)

/-- `trieste.utils.DEFAULTS.JITTER` (repository code outside `src/`).
Modelled from the spec: a fixed small positive constant added to a
covariance diagonal for numerical conditioning (the source default 1e-6). -/
def JITTER : ℚ := 1 / 1000000

/-- The spec's error taxonomy (§7 of the spec), naming the conditions the
source raises. -/
inductive Err where
  | unsupported
  | invalidArgument
  | shapeMismatch
  | typeMismatch
  | numericalFailure
  deriving DecidableEq

/-- The read interface of one GPflux `GPLayer` (external model object, §6 of
the spec): inducing inputs `Z : [M, D]`, variational mean `q_mu : [M, P]`,
variational covariance factor `q_sqrt : [P, M, M]`, the whitening flag, the
kernel and the mean function.  `kernelFn X Y` gives the entries of the Gram
block `K(X, Y)` (a gpflow kernel returns shape `[X.n1, Y.n1]` by contract);
`meanFn x` gives the entries of `mean_function(x)` broadcast to `[N, B, P]`.
The `SharedIndependent` unwrapping and the `InducingPoints` indirection of
the source are identities at this interface: both expose one kernel and one
`Z`. -/
structure GPLayerData where
  Z : Tensor2
  q_mu : Tensor2
  q_sqrt : Tensor3
  whiten : Bool
  kernelFn : Tensor2 → Tensor2 → ℕ → ℕ → ℚ
  meanFn : Tensor3 → ℕ → ℕ → ℕ → ℚ

/-- The Gram block `K(X, Y)` of a layer's kernel, shaped `[X.n1, Y.n1]`. -/
def GPLayerData.gram (p : GPLayerData) (X Y : Tensor2) : Tensor2 :=
  ⟨X.n1, Y.n1, p.kernelFn X Y⟩

/-- Mutable state of `ResampleableDecoupledDeepGaussianProcessFeatureFunctions`:
the `tf.Variable`s `W` (frequency matrix, `[L, D]`) and `b` (phase vector,
stored `[1, L]`).  The inducing points and the kernel are read through live
references to the layer and are therefore not part of this state. -/
structure FeatureFunctionsState where
  W : Tensor2
  b : Tensor2

/-- Construction of the feature functions: `__init__` triggers the external
RFF build on a dummy input, which draws `b` then `W` from the library's
samplers (phase / spectral distributions of the kernel, modelled as stream
reads), then wraps them in `tf.Variable`s. -/
def mkFeatureFunctions (p : GPLayerData) (n_components : ℕ) (rng : RNG) :
    FeatureFunctionsState × RNG :=
  let rb := rng.normal2 1 n_components
  let rW := rb.2.normal2 n_components p.Z.n2
  (⟨rW.1, rb.1⟩, rW.2)

/-- `ResampleableDecoupledDeepGaussianProcessFeatureFunctions.resample`:
redraw `b` and then `W` in place, each with the shape of the tensor it
replaces (`tf.shape(self.b)` / `tf.shape(self.W)`). -/
def FeatureFunctionsState.resample (s : FeatureFunctionsState) (rng : RNG) :
    FeatureFunctionsState × RNG :=
  let rb := rng.normal2 s.b.n1 s.b.n2
  let rW := rb.2.normal2 s.W.n1 s.W.n2
  (⟨rW.1, rb.1⟩, rW.2)

/-- The external `RandomFourierFeaturesCosine.__call__`: trigonometric
features of `W·x + b`.  `act` abstracts the scaled cosine applied by the
library; the shape contract `[N, L]` is what the code under verification
relies on. -/
def rffEval (act : ℚ → ℚ) (s : FeatureFunctionsState) (x : Tensor2) : Tensor2 :=
  ⟨x.n1, s.W.n1, fun n l =>
    act ((Finset.range x.n2).sum (fun d => s.W.entry l d * x.entry n d) + s.b.entry 0 l)⟩

/-- `ResampleableDecoupledDeepGaussianProcessFeatureFunctions.__call__`:
concatenate the Fourier feature evaluation `[N, L]` with the canonical
feature evaluation `K(Z, x)ᵀ : [N, M]`, giving `[N, L + M]`. -/
def featureFunctionsCall (act : ℚ → ℚ) (p : GPLayerData) (s : FeatureFunctionsState)
    (x : Tensor2) : Tensor2 :=
  concatCols (rffEval act s x) (transposeT2 (p.gram p.Z x))

/-- The values captured by value by the closure
`DeepGaussianProcessDecoupledLayer._prepare_weight_sampler` returns: the
Gram matrix `Kmm` (an eager tensor computed at prepare time), the whitening
flag and the integers `M`, `P` and `L = num_features`.  Everything else the
closure uses (`q_mu`, `q_sqrt`, the inducing points, the feature functions)
is read through live references at call time. -/
structure WeightSampler where
  Kmm : Tensor2
  whiten : Bool
  M : ℕ
  P : ℕ
  L : ℕ

/-- `DeepGaussianProcessDecoupledLayer._prepare_weight_sampler` (the part
executed at prepare time): recompute `Kmm = K(Z, Z) + jitter·I` from the
layer's current kernel and inducing points and capture it, together with
`whiten`, `M`, `P` and the feature count. -/
def prepare_weight_sampler (p : GPLayerData) (num_features : ℕ) : WeightSampler :=
  { Kmm := addT2 (p.gram p.Z p.Z) (scaleT2 JITTER (eyeT2 p.Z.n1))
    whiten := p.whiten
    M := p.q_mu.n1
    P := p.q_mu.n2
    L := num_features }

/-- The draw of the prior weights: `tf.random.normal([B, L, P])`. -/
def priorDraw (c : WeightSampler) (B : ℕ) (rng : RNG) : Tensor3 × RNG :=
  rng.normal3 B c.L c.P

/-- The draw of the posterior noise: `tf.random.normal([B, P, M, 1])`
(the trailing singleton axis is dropped). -/
def noiseDraw (c : WeightSampler) (B : ℕ) (rng : RNG) : Tensor3 × RNG :=
  rng.normal3 B c.P c.M

/-- `u_sample` of the weight sampler: `q_mu + (q_sqrt @ noise)ᵀ`, then
left-multiplied by `chol Kmm` when the layer is whitened.  Shape `[B, M, P]`. -/
def uSample (chol : Tensor2 → Tensor2) (c : WeightSampler) (p : GPLayerData)
    (noise : Tensor3) (B : ℕ) : Tensor3 :=
  let u0 : Tensor3 := ⟨B, c.M, c.P, fun b m q =>
    p.q_mu.entry m q + (Finset.range c.M).sum (fun k => p.q_sqrt.entry q m k * noise.entry b q k)⟩
  if c.whiten then
    ⟨B, c.M, c.P, fun b m q =>
      (Finset.range c.M).sum (fun k => (chol c.Kmm).entry m k * u0.entry b k q)⟩
  else u0

/-- `phi_Z`: the feature functions evaluated at the (live) inducing points,
restricted to the first `L` columns (the Fourier block), shape `[M, L]`. -/
def phiZmat (act : ℚ → ℚ) (c : WeightSampler) (p : GPLayerData)
    (fs : FeatureFunctionsState) : Tensor2 :=
  ⟨p.Z.n1, c.L, (featureFunctionsCall act p fs p.Z).entry⟩

/-- The closure returned by `_prepare_weight_sampler`, called with a batch
size: draw prior weights `[B, L, P]` and posterior noise, form `u_sample`,
evaluate `phi_Z @ prior`, solve `Kmm · v = u − phi_Z · prior` through
`compute_A_inv_b`, and return `[prior ; v]` concatenated along axis 1. -/
def weight_sampler_call (chol : Tensor2 → Tensor2) (act : ℚ → ℚ) (c : WeightSampler)
    (p : GPLayerData) (fs : FeatureFunctionsState) (B : ℕ) (rng : RNG) : Tensor3 × RNG :=
  let rp := priorDraw c B rng
  let rn := noiseDraw c B rp.2
  let prior := rp.1
  let u := uSample chol c p rn.1 B
  let phiZ := phiZmat act c p fs
  let wsp : Tensor3 := ⟨B, phiZ.n1, c.P, fun b m q =>
    (Finset.range c.L).sum (fun l => phiZ.entry m l * prior.entry b l q)⟩
  let diff : Tensor3 := ⟨B, c.M, c.P, fun b m q => u.entry b m q - wsp.entry b m q⟩
  let v : Tensor3 := ⟨B, c.M, c.P, fun b m q =>
    (compute_A_inv_b c.Kmm ⟨c.M, c.P, fun i j => diff.entry b i j⟩).entry m q⟩
  (concatAxis1 prior v, rn.2)

/-- The batch-`b` slice of the Matheron residual `u − Φ(Z)·prior` that one
weight-sampler call hands to `compute_A_inv_b`, written out from the draws
consumed by that call. -/
def matheronDiffSlice (chol : Tensor2 → Tensor2) (act : ℚ → ℚ) (c : WeightSampler)
    (p : GPLayerData) (fs : FeatureFunctionsState) (B : ℕ) (rng : RNG) (b : ℕ) : Tensor2 :=
  ⟨c.M, c.P, fun m q =>
    (uSample chol c p (noiseDraw c B (priorDraw c B rng).2).1 B).entry b m q
      - (Finset.range c.L).sum (fun l =>
          (phiZmat act c p fs).entry m l * (priorDraw c B rng).1.entry b l q)⟩

/-- Mutable state of `DeepGaussianProcessDecoupledLayer`: its feature
functions, the prepared weight-sampler closure, the lazy-initialization flag,
the cached weight draw (`tf.Variable`, initially `tf.ones([0, 0, 0])`) and
the batch-size variable (initially `0`). -/
structure DeepGaussianProcessDecoupledLayer where
  num_features : ℕ
  feature_functions : FeatureFunctionsState
  weight_sampler : WeightSampler
  initialized : Bool
  weights_sample : Tensor3
  batch_size : ℕ

/-- `DeepGaussianProcessDecoupledLayer.resample`: redraw the cached weights
in place by calling the prepared weight-sampler closure at the current batch
size.  `p` is the underlying GPflux layer the sampler holds by reference. -/
def DeepGaussianProcessDecoupledLayer.resample (chol : Tensor2 → Tensor2) (act : ℚ → ℚ)
    (p : GPLayerData) (s : DeepGaussianProcessDecoupledLayer) (rng : RNG) :
    DeepGaussianProcessDecoupledLayer × RNG :=
  let r := weight_sampler_call chol act s.weight_sampler p s.feature_functions s.batch_size rng
  ({ s with weights_sample := r.1 }, r.2)

/-- `DeepGaussianProcessDecoupledLayer.update`: re-prepare the weight sampler
from the layer's current parameters, then resample the weights. -/
def DeepGaussianProcessDecoupledLayer.update (chol : Tensor2 → Tensor2) (act : ℚ → ℚ)
    (p : GPLayerData) (s : DeepGaussianProcessDecoupledLayer) (rng : RNG) :
    DeepGaussianProcessDecoupledLayer × RNG :=
  DeepGaussianProcessDecoupledLayer.resample chol act p
    { s with weight_sampler := prepare_weight_sampler p s.num_features } rng

/-- The lazy first-call initialization block of
`DeepGaussianProcessDecoupledLayer.__call__`: when uninitialized, record
`tf.shape(x)[-2]` as the batch size, resample, and set the flag. -/
def DeepGaussianProcessDecoupledLayer.step1 (chol : Tensor2 → Tensor2) (act : ℚ → ℚ)
    (p : GPLayerData) (s : DeepGaussianProcessDecoupledLayer) (x : Tensor3) (rng : RNG) :
    DeepGaussianProcessDecoupledLayer × RNG :=
  if s.initialized then (s, rng)
  else
    let t := DeepGaussianProcessDecoupledLayer.resample chol act p
      { s with batch_size := x.n2 } rng
    ({ t.1 with initialized := true }, t.2)

/-- `trieste.utils.flatten_leading_dims` (repository code outside `src/`).
Modelled from the spec (§4.3): flatten the leading `[N, B]` axes of an
`[N, B, D]` tensor into `[N·B, D]` (row-major). -/
def flatten_leading_dims (x : Tensor3) : Tensor2 :=
  ⟨x.n1 * x.n2, x.n3, fun r d => x.entry (r / x.n2) (r % x.n2) d⟩

/-- The output computation of `DeepGaussianProcessDecoupledLayer.__call__`
after the guard: evaluate the feature functions on the flattened input,
unflatten, contract with the cached weights along the feature axis and add
the layer's mean function; shape `[N, B, P]`. -/
def layerOutput (act : ℚ → ℚ) (p : GPLayerData) (s : DeepGaussianProcessDecoupledLayer)
    (x : Tensor3) : Tensor3 :=
  let feats := featureFunctionsCall act p s.feature_functions (flatten_leading_dims x)
  ⟨x.n1, x.n2, s.weights_sample.n3, fun n b q =>
    (Finset.range feats.n2).sum
      (fun j => feats.entry (n * x.n2 + b) j * s.weights_sample.entry b j q)
      + p.meanFn x n b q⟩

/-- `DeepGaussianProcessDecoupledLayer.__call__`: lazily initialize on first
call, then fail with the spec's `ShapeMismatch` condition
(`tf.debugging.assert_equal`) unless the input's batch dimension equals the
fixed batch size, and otherwise produce the layer output. -/
def DeepGaussianProcessDecoupledLayer.call (chol : Tensor2 → Tensor2) (act : ℚ → ℚ)
    (p : GPLayerData) (s : DeepGaussianProcessDecoupledLayer) (x : Tensor3) (rng : RNG) :
    Except Err (Tensor3 × DeepGaussianProcessDecoupledLayer × RNG) :=
  let t := DeepGaussianProcessDecoupledLayer.step1 chol act p s x rng
  if x.n2 = t.1.batch_size then .ok (layerOutput act p t.1 x, t.1, t.2)
  else .error .shapeMismatch

/-- Project the post-call layer state out of a call result. -/
def callState (r : Except Err (Tensor3 × DeepGaussianProcessDecoupledLayer × RNG)) :
    Option DeepGaussianProcessDecoupledLayer :=
  match r with
  | .ok y => some y.2.1
  | .error _ => none

/-- `dgp_feature_decomposition_trajectory.__call__`, inner loop: thread the
input through the layer samplers in order.  `ps` are the underlying GPflux
layers each sampler holds by reference, in the same order. -/
def trajectory_go (chol : Tensor2 → Tensor2) (act : ℚ → ℚ) :
    List GPLayerData → List DeepGaussianProcessDecoupledLayer → Tensor3 → RNG →
    Except Err (Tensor3 × List DeepGaussianProcessDecoupledLayer × RNG)
  | [], _, x, rng => .ok (x, [], rng)
  | _ :: _, [], x, rng => .ok (x, [], rng)
  | p :: ps, s :: ss, x, rng =>
    match DeepGaussianProcessDecoupledLayer.call chol act p s x rng with
    | .error e => .error e
    | .ok y =>
      match trajectory_go chol act ps ss y.1 y.2.2 with
      | .error e => .error e
      | .ok z => .ok (z.1, y.2.1 :: z.2.1, z.2.2)

/-- `dgp_feature_decomposition_trajectory.__call__`: run the layers in
order and keep the first output channel (`x[..., 0]`). -/
def dgp_feature_decomposition_trajectory_call (chol : Tensor2 → Tensor2) (act : ℚ → ℚ)
    (ps : List GPLayerData) (ss : List DeepGaussianProcessDecoupledLayer)
    (x : Tensor3) (rng : RNG) :
    Except Err (Tensor2 × List DeepGaussianProcessDecoupledLayer × RNG) :=
  match trajectory_go chol act ps ss x rng with
  | .error e => .error e
  | .ok z => .ok (⟨z.1.n1, z.1.n2, fun n b => z.1.entry n b 0⟩, z.2.1, z.2.2)

/-- `dgp_feature_decomposition_trajectory.update`: fan `update` out to every
layer sampler in order. -/
def trajectory_update_go (chol : Tensor2 → Tensor2) (act : ℚ → ℚ) :
    List GPLayerData → List DeepGaussianProcessDecoupledLayer → RNG →
    List DeepGaussianProcessDecoupledLayer × RNG
  | [], _, rng => ([], rng)
  | _ :: _, [], rng => ([], rng)
  | p :: ps, s :: ss, rng =>
    let t := DeepGaussianProcessDecoupledLayer.update chol act p s rng
    let rest := trajectory_update_go chol act ps ss t.2
    (t.1 :: rest.1, rest.2)

/-- `dgp_feature_decomposition_trajectory.resample`: fan `resample` out to
every layer sampler in order. -/
def trajectory_resample_go (chol : Tensor2 → Tensor2) (act : ℚ → ℚ) :
    List GPLayerData → List DeepGaussianProcessDecoupledLayer → RNG →
    List DeepGaussianProcessDecoupledLayer × RNG
  | [], _, rng => ([], rng)
  | _ :: _, [], rng => ([], rng)
  | p :: ps, s :: ss, rng =>
    let t := DeepGaussianProcessDecoupledLayer.resample chol act p s rng
    let rest := trajectory_resample_go chol act ps ss t.2
    (t.1 :: rest.1, rest.2)

/-- The argument handed to the manager's `update_trajectory` /
`resample_trajectory`: either an instance of the composition type
`dgp_feature_decomposition_trajectory` (carrying its layer samplers) or any
other `TrajectoryFunction`. -/
inductive TrajectoryFunctionArg where
  | decoupled (ss : List DeepGaussianProcessDecoupledLayer)
  | otherFunction

/-- `DeepGaussianProcessDecoupledTrajectorySampler.update_trajectory`:
require (via `tf.debugging.Assert isinstance`, the spec's `TypeMismatch`
condition) that the argument is a `dgp_feature_decomposition_trajectory`,
delegate to its `update`, and hand the same, in-place-mutated trajectory
back. -/
def update_trajectory (chol : Tensor2 → Tensor2) (act : ℚ → ℚ) (ps : List GPLayerData)
    (t : TrajectoryFunctionArg) (rng : RNG) : Except Err (TrajectoryFunctionArg × RNG) :=
  match t with
  | .decoupled ss =>
    let r := trajectory_update_go chol act ps ss rng
    .ok (.decoupled r.1, r.2)
  | .otherFunction => .error .typeMismatch

/-- `DeepGaussianProcessDecoupledTrajectorySampler.resample_trajectory`: same
contract as `update_trajectory`, delegating to the trajectory's `resample`. -/
def resample_trajectory (chol : Tensor2 → Tensor2) (act : ℚ → ℚ) (ps : List GPLayerData)
    (t : TrajectoryFunctionArg) (rng : RNG) : Except Err (TrajectoryFunctionArg × RNG) :=
  match t with
  | .decoupled ss =>
    let r := trajectory_resample_go chol act ps ss rng
    .ok (.decoupled r.1, r.2)
  | .otherFunction => .error .typeMismatch

/-- One layer of the deep GP model's `f_layers`, as the construction-time
`isinstance` checks see it: a plain `GPLayer`, a latent-variable layer
(whose call transforms the trailing input dimension by `outDim`), or any
other layer kind. -/
inductive FLayer where
  | gp (p : GPLayerData)
  | latentVariable (outDim : ℕ → ℕ)
  | otherLayer

/-- Whether a layer is a plain `GPLayer`. -/
def FLayer.isGP : FLayer → Bool
  | .gp _ => true
  | _ => false

/-- Whether a layer is of a kind outside the model wrapper's closed set. -/
def FLayer.isOther : FLayer → Bool
  | .otherLayer => true
  | _ => false

/-- The `ok` branch of `DeepGaussianProcessDecoupledLayer.__init__` for a
plain GP layer: build the resampleable feature functions (drawing their
initial `W`, `b`), prepare the weight sampler, and initialize the
`tf.Variable`s `_initialized := False`, `_weights_sample := tf.ones([0,0,0])`
and `_batch_size := 0`. -/
def mkGPDecoupledLayer (p : GPLayerData) (num_features : ℕ) (rng : RNG) :
    DeepGaussianProcessDecoupledLayer × RNG :=
  let fr := mkFeatureFunctions p num_features rng
  ({ num_features := num_features
     feature_functions := fr.1
     weight_sampler := prepare_weight_sampler p num_features
     initialized := false
     weights_sample := ⟨0, 0, 0, fun _ _ _ => 1⟩
     batch_size := 0 }, fr.2)

/-- `DeepGaussianProcessDecoupledLayer.__init__`: layers other than
`gpflux.layers.GPLayer` are rejected with a `ValueError` (the spec's
`Unsupported` condition). -/
def mkDecoupledLayer (l : FLayer) (num_features : ℕ) (rng : RNG) :
    Except Err (DeepGaussianProcessDecoupledLayer × RNG) :=
  match l with
  | .gp p => .ok (mkGPDecoupledLayer p num_features rng)
  | _ => .error .unsupported

/-- The layer-construction loop of
`DeepGaussianProcessDecoupledTrajectorySampler.__init__`: one decoupled
layer sampler per model layer, in order. -/
def mkSamplingLayers (num_features : ℕ) :
    List FLayer → RNG → Except Err (List DeepGaussianProcessDecoupledLayer × RNG)
  | [], rng => .ok ([], rng)
  | l :: ls, rng =>
    match mkDecoupledLayer l num_features rng with
    | .error e => .error e
    | .ok t =>
      match mkSamplingLayers num_features ls t.2 with
      | .error e => .error e
      | .ok rest => .ok (t.1 :: rest.1, rest.2)

/-- State of `DeepGaussianProcessDecoupledTrajectorySampler` after a
successful construction. -/
structure DeepGaussianProcessDecoupledTrajectorySampler where
  num_features : ℕ
  sampling_layers : List DeepGaussianProcessDecoupledLayer

/-- `DeepGaussianProcessDecoupledTrajectorySampler.__init__` over the
model's `f_layers`: `tf.debugging.assert_positive(num_features)` (the spec's
`InvalidArgument` condition), then build one decoupled layer sampler per
layer, failing on the first layer that is not a plain `GPLayer`. -/
def mkDecoupledTrajectorySampler (model : List FLayer) (num_features : ℕ) (rng : RNG) :
    Except Err (DeepGaussianProcessDecoupledTrajectorySampler × RNG) :=
  if num_features = 0 then .error .invalidArgument
  else
    match mkSamplingLayers num_features model rng with
    | .error e => .error e
    | .ok t => .ok (⟨num_features, t.1⟩, t.2)

/-- A `trieste.data.Dataset`: query points `[N, D]` and observations. -/
structure Dataset where
  query_points : Tensor2
  observations : Tensor2

/-- The per-layer shape-checking loop of `DeepGaussianProcess.update`
(`src/trieste/models/gpflux/models.py`): thread the trailing dimension of
`inputs` through the layers; a latent-variable layer just transforms it; a
GP layer first requires the incoming trailing dimension to match its
inducing points' trailing dimension, then, when it is the final layer,
requires the observations' trailing dimension to match `q_mu`'s; each
`ValueError` (the spec's `ShapeMismatch`) is raised at the point of
detection, before later layers are visited. -/
def deepGaussianProcessUpdateGo (obsDim : ℕ) :
    List FLayer → ℕ → Except Err Unit
  | [], _ => .ok ()
  | .latentVariable f :: rest, cur => deepGaussianProcessUpdateGo obsDim rest (f cur)
  | .gp p :: rest, cur =>
    if cur ≠ p.Z.n2 then .error .shapeMismatch
    else if rest.isEmpty = true ∧ obsDim ≠ p.q_mu.n2 then .error .shapeMismatch
    else deepGaussianProcessUpdateGo obsDim rest p.q_mu.n2
  | .otherLayer :: _, _ => .error .unsupported

/-- `DeepGaussianProcess.update(dataset)` restricted to its observable
effect on the claims: the shape-checking loop over the model layers,
starting from the query points' trailing dimension.  (The `num_data`
bookkeeping carries no information the claims mention.) -/
def deepGaussianProcess_update (model : List FLayer) (ds : Dataset) : Except Err Unit :=
  deepGaussianProcessUpdateGo ds.observations.n2 model ds.query_points.n2

/-- Spec-side shape-compatibility predicate for `DeepGaussianProcess.update`
(used to state the amended claim C9): the input dimension propagated through
the preceding layers matches every GP layer's inducing-point trailing
dimension, and when the final layer is a GP layer the observations' trailing
dimension matches its `q_mu`'s. -/
inductive ShapesOk (obsDim : ℕ) : List FLayer → ℕ → Prop where
  | nil (d : ℕ) : ShapesOk obsDim [] d
  | lv (f : ℕ → ℕ) (rest : List FLayer) (d : ℕ) :
      ShapesOk obsDim rest (f d) → ShapesOk obsDim (.latentVariable f :: rest) d
  | gpLast (p : GPLayerData) (d : ℕ) :
      d = p.Z.n2 → obsDim = p.q_mu.n2 → ShapesOk obsDim [.gp p] d
  | gpCons (p : GPLayerData) (l : FLayer) (rest : List FLayer) (d : ℕ) :
      d = p.Z.n2 → ShapesOk obsDim (l :: rest) p.q_mu.n2 →
      ShapesOk obsDim (.gp p :: l :: rest) d

/-- The Matheron-rule contract of one weight-sampler call (claim C2), for a
layer whose closure was prepared from its current parameters: the returned
tensor has shape `[B, L+M, P]`; its first `L` feature rows are exactly the
fresh prior draw from the random stream; its last `M` feature rows `v`
satisfy `Kmm · v = u − Φ(Z)·prior` as matrices, where
`u = q_mu + q_sqrt · noise`, left-multiplied by `chol Kmm` exactly when the
layer is whitened; and `Kmm` is `K(Z,Z) + jitter·I`. -/
def matheronSpec (chol : Tensor2 → Tensor2) (act : ℚ → ℚ) (p : GPLayerData)
    (fs : FeatureFunctionsState) (B L : ℕ) (rng : RNG) : Prop :=
  let c := prepare_weight_sampler p L
  let w := (weight_sampler_call chol act c p fs B rng).1
  let prior := (priorDraw c B rng).1
  let noise := (noiseDraw c B (priorDraw c B rng).2).1
  let M := p.Z.n1
  let P := p.q_mu.n2
  let u := uSample chol c p noise B
  w.n1 = B ∧ w.n2 = L + M ∧ w.n3 = P ∧
  (∀ b l q, l < L → w.entry b l q = prior.entry b l q) ∧
  (∀ b l q, prior.entry b l q = rng.stream (rng.pos + ((b * L + l) * P + q))) ∧
  (∀ b, toMat M M c.Kmm * toMat M P ⟨M, P, fun m q => w.entry b (L + m) q⟩
      = toMat M P ⟨M, P, fun m q => u.entry b m q⟩
        - toMat M L (phiZmat act c p fs) * toMat L P ⟨L, P, fun l q => prior.entry b l q⟩) ∧
  (p.whiten = false → ∀ b m q, u.entry b m q
      = p.q_mu.entry m q
        + (Finset.range M).sum (fun k => p.q_sqrt.entry q m k * noise.entry b q k)) ∧
  (p.whiten = true → ∀ b m q, u.entry b m q
      = (Finset.range M).sum (fun k => (chol c.Kmm).entry m k *
          (p.q_mu.entry k q
            + (Finset.range M).sum (fun j => p.q_sqrt.entry q k j * noise.entry b q j)))) ∧
  c.Kmm.n1 = M ∧ c.Kmm.n2 = M ∧
  (∀ i j, c.Kmm.entry i j = p.kernelFn p.Z p.Z i j + (if i = j ∧ i < M then JITTER else 0))

/-! ### Concrete instances used by witnesses and counterexamples -/

/-- A concrete stand-in for `tf.linalg.cholesky` (any function works for the
statements that quantify over `chol`). -/
def cholId : Tensor2 → Tensor2 := fun A => A

/-- A concrete stand-in for the external scaled-cosine basis map. -/
def actId : ℚ → ℚ := fun q => q

/-- A random stream that always reads 0. -/
def rng0 : RNG := ⟨fun _ => 0, 0⟩

/-- A random stream that always reads 5. -/
def rng5 : RNG := ⟨fun _ => 5, 0⟩

/-- A one-dimensional GP layer: one inducing point at 0, `q_mu = 1`,
`q_sqrt = 0`, constant kernel 1, zero mean function, not whitened. -/
def p0 : GPLayerData :=
  { Z := ⟨1, 1, fun _ _ => 0⟩
    q_mu := ⟨1, 1, fun _ _ => 1⟩
    q_sqrt := ⟨1, 1, 1, fun _ _ _ => 0⟩
    whiten := false
    kernelFn := fun _ _ _ _ => 1
    meanFn := fun _ _ _ _ => 0 }

/-- Like `p0` but with constant kernel 2 (a layer whose kernel was changed
after the weight sampler was last prepared). -/
def pStale : GPLayerData :=
  { Z := ⟨1, 1, fun _ _ => 0⟩
    q_mu := ⟨1, 1, fun _ _ => 1⟩
    q_sqrt := ⟨1, 1, 1, fun _ _ _ => 0⟩
    whiten := false
    kernelFn := fun _ _ _ _ => 2
    meanFn := fun _ _ _ _ => 0 }

/-- A concrete feature-function state with `L = 1`, `D = 1` and zero `W`, `b`. -/
def fs0 : FeatureFunctionsState := ⟨⟨1, 1, fun _ _ => 0⟩, ⟨1, 1, fun _ _ => 0⟩⟩

/-- An already-initialized decoupled layer sampler over `p0` with batch size 1. -/
def sInit : DeepGaussianProcessDecoupledLayer :=
  { num_features := 1
    feature_functions := fs0
    weight_sampler := prepare_weight_sampler p0 1
    initialized := true
    weights_sample := ⟨1, 2, 1, fun _ _ _ => 1⟩
    batch_size := 1 }

/-- A weight-sampler closure whose captured `Kmm` is the 1×1 matrix `[1]`
(as prepared before the kernel of `pStale` was changed to the constant 2). -/
def wsCaptured : WeightSampler := { Kmm := ⟨1, 1, fun _ _ => 1⟩, whiten := false, M := 1, P := 1, L := 1 }

/-- An initialized decoupled layer sampler over `pStale` still holding the
closure `wsCaptured` prepared from the old kernel. -/
def sStale : DeepGaussianProcessDecoupledLayer :=
  { num_features := 1
    feature_functions := fs0
    weight_sampler := wsCaptured
    initialized := true
    weights_sample := ⟨1, 2, 1, fun _ _ _ => 0⟩
    batch_size := 1 }

/-- A concrete `[N, B, D] = [1, 1, 1]` input. -/
def x0 : Tensor3 := ⟨1, 1, 1, fun _ _ _ => 0⟩

/-- A concrete `[1, 2, 1]` input (batch dimension 2). -/
def x2 : Tensor3 := ⟨1, 2, 1, fun _ _ _ => 0⟩

/-- First layer of the C9 counterexample model: inducing points of trailing
dimension 2, output dimension 3. -/
def pA : GPLayerData :=
  { Z := ⟨1, 2, fun _ _ => 0⟩
    q_mu := ⟨1, 3, fun _ _ => 0⟩
    q_sqrt := ⟨3, 1, 1, fun _ _ _ => 0⟩
    whiten := false
    kernelFn := fun _ _ _ _ => 0
    meanFn := fun _ _ _ _ => 0 }

/-- Second layer of the C9 counterexample model: inducing points of trailing
dimension 3 (matching `pA`'s output, not the query points). -/
def pB : GPLayerData :=
  { Z := ⟨1, 3, fun _ _ => 0⟩
    q_mu := ⟨1, 3, fun _ _ => 0⟩
    q_sqrt := ⟨3, 1, 1, fun _ _ _ => 0⟩
    whiten := false
    kernelFn := fun _ _ _ _ => 0
    meanFn := fun _ _ _ _ => 0 }

/-- A dataset with query points of trailing dimension 2 and observations of
trailing dimension 3. -/
def dsC : Dataset := ⟨⟨5, 2, fun _ _ => 0⟩, ⟨5, 3, fun _ _ => 0⟩⟩

/-! ### Helper lemmas -/

theorem toMat_ofMat {m n : ℕ} (A : Matrix (Fin m) (Fin n) ℚ) : toMat m n (ofMat m n A) = A := by
  ext i j
  have hi : (i : ℕ) < m := i.isLt
  have hj : (j : ℕ) < n := j.isLt
  simp [toMat, ofMat, hi, hj]

theorem qInv_eq_inv {m : ℕ} (A : Matrix (Fin m) (Fin m) ℚ) : qInv A = A⁻¹ := by
  rw [qInv, Matrix.inv_def, Ring.inverse_eq_inv]

theorem mul_qInv_cancel {m : ℕ} (A : Matrix (Fin m) (Fin m) ℚ) (h : A.det ≠ 0) :
    A * qInv A = 1 := by
  rw [qInv_eq_inv]
  exact Matrix.mul_nonsing_inv A (isUnit_iff_ne_zero.mpr h)

theorem compute_A_inv_b_spec (A B : Tensor2) (h : (toMat A.n1 A.n1 A).det ≠ 0) :
    toMat A.n1 A.n1 A * toMat A.n1 B.n2 (compute_A_inv_b A B) = toMat A.n1 B.n2 B := by
  rw [compute_A_inv_b, toMat_ofMat, ← Matrix.mul_assoc, mul_qInv_cancel _ h, Matrix.one_mul]

theorem concatAxis1_entry_lt (A B : Tensor3) (b j q : ℕ) (h : j < A.n2) :
    (concatAxis1 A B).entry b j q = A.entry b j q := by
  simp [concatAxis1, h]

theorem concatAxis1_entry_ge (A B : Tensor3) (b m q : ℕ) :
    (concatAxis1 A B).entry b (A.n2 + m) q = B.entry b m q := by
  show (if A.n2 + m < A.n2 then A.entry b (A.n2 + m) q else B.entry b (A.n2 + m - A.n2) q)
      = B.entry b m q
  rw [if_neg (by omega), Nat.add_sub_cancel_left]

theorem compute_A_inv_b_entry_one (a g : ℕ → ℕ → ℚ) (n2 m1 : ℕ) :
    (compute_A_inv_b ⟨1, n2, a⟩ ⟨m1, 1, g⟩).entry 0 0 = (a 0 0)⁻¹ * g 0 0 := by
  simp [compute_A_inv_b, ofMat, toMat, qInv, Matrix.mul_apply, Matrix.smul_apply,
    Matrix.det_fin_one, Matrix.adjugate_fin_one, Matrix.one_apply, Fin.sum_univ_one]

/-! ### Claim theorems -/

/-- C8 (confirmed): the feature bank's `resample()` redraws `W` and `b`
strictly in place (their new entries are fresh reads of the random stream,
their shapes are unchanged) and changes neither the feature count `L`, the
inducing-point count `M`, nor the shape of any evaluation: for every input
`x` the shape of the evaluation after the resample equals the shape before,
namely `[N, L + M]` with `N = x.n1`, `L = fs.W.n1` and `M = p.Z.n1`. -/
theorem C8_feature_resample_shape_frame (act : ℚ → ℚ) (p : GPLayerData)
    (fs : FeatureFunctionsState) (rng : RNG) (x : Tensor2) :
    ((fs.resample rng).1.W.n1 = fs.W.n1 ∧ (fs.resample rng).1.W.n2 = fs.W.n2 ∧
      (fs.resample rng).1.b.n1 = fs.b.n1 ∧ (fs.resample rng).1.b.n2 = fs.b.n2) ∧
    (∀ i j, (fs.resample rng).1.b.entry i j = rng.stream (rng.pos + (i * fs.b.n2 + j))) ∧
    (∀ i j, (fs.resample rng).1.W.entry i j
        = rng.stream (rng.pos + fs.b.n1 * fs.b.n2 + (i * fs.W.n2 + j))) ∧
    (featureFunctionsCall act p (fs.resample rng).1 x).n1 = x.n1 ∧
    (featureFunctionsCall act p (fs.resample rng).1 x).n2 = fs.W.n1 + p.Z.n1 ∧
    (featureFunctionsCall act p (fs.resample rng).1 x).n1
        = (featureFunctionsCall act p fs x).n1 ∧
    (featureFunctionsCall act p (fs.resample rng).1 x).n2
        = (featureFunctionsCall act p fs x).n2 :=
  ⟨⟨rfl, rfl, rfl, rfl⟩, fun _ _ => rfl, fun _ _ => rfl, rfl, rfl, rfl, rfl⟩

/-- C1 (code bug): at a concrete initialized layer sampler, `update()`
leaves the feature bank (`W` and `b`) exactly unchanged — even though a
feature redraw at the same random state would change `W` — while it does
redraw the cached weights through a freshly prepared weight sampler;
`resample()` also leaves the features unchanged.  The source `update()`
never calls `self._feature_functions.resample()`, so the claim's
"update() redraws the random features" fails on the code. -/
theorem C1_update_does_not_redraw_features :
    ((DeepGaussianProcessDecoupledLayer.update cholId actId p0 sInit rng5).1.feature_functions
        = sInit.feature_functions) ∧
    ((DeepGaussianProcessDecoupledLayer.resample cholId actId p0 sInit rng5).1.feature_functions
        = sInit.feature_functions) ∧
    ((FeatureFunctionsState.resample sInit.feature_functions rng5).1.W
        ≠ sInit.feature_functions.W) ∧
    ((DeepGaussianProcessDecoupledLayer.update cholId actId p0 sInit rng5).1.weights_sample
        = (weight_sampler_call cholId actId (prepare_weight_sampler p0 sInit.num_features) p0
            sInit.feature_functions sInit.batch_size rng5).1) := by
  refine ⟨rfl, rfl, ?_, rfl⟩
  intro h
  have h3 := congrArg (fun t => t.entry 0 0) h
  simp [FeatureFunctionsState.resample, RNG.normal2, RNG.advance, rng5, fs0, sInit] at h3

/-- C3 (amended): `K_mm = K(Z,Z) + jitter·I` is recomputed from the layer's
current kernel and inducing points inside every `update()` pass (and at
construction), but it is captured by the weight-sampler closure:
`resample()` reuses the captured `K_mm` and only re-reads `q_mu`, `q_sqrt`,
the inducing points and the feature functions live. -/
theorem C3_gram_recomputed_on_update_reused_on_resample (chol : Tensor2 → Tensor2)
    (act : ℚ → ℚ) (p : GPLayerData) (s : DeepGaussianProcessDecoupledLayer) (rng : RNG) :
    ((DeepGaussianProcessDecoupledLayer.update chol act p s rng).1.weight_sampler
        = prepare_weight_sampler p s.num_features) ∧
    ((prepare_weight_sampler p s.num_features).Kmm
        = addT2 (p.gram p.Z p.Z) (scaleT2 JITTER (eyeT2 p.Z.n1))) ∧
    ((DeepGaussianProcessDecoupledLayer.resample chol act p s rng).1.weight_sampler
        = s.weight_sampler) ∧
    ((DeepGaussianProcessDecoupledLayer.resample chol act p s rng).1.weights_sample
        = (weight_sampler_call chol act s.weight_sampler p
            s.feature_functions s.batch_size rng).1) ∧
    ((DeepGaussianProcessDecoupledLayer.update chol act p s rng).1.weights_sample
        = (weight_sampler_call chol act (prepare_weight_sampler p s.num_features) p
            s.feature_functions s.batch_size rng).1) :=
  ⟨rfl, rfl, rfl, rfl, rfl⟩

/-- C3 (counterexample): a concrete layer whose kernel changed (constant 2)
after the weight-sampler closure captured `Kmm = [1]`.  With an all-zero
random stream the redrawn weight's Matheron entry is `Kmm⁻¹ · q_mu`:
`resample()` produces `1` (using the captured `[1]`), whereas recomputing
the Gram matrix from the current kernel first would produce
`(2 + jitter)⁻¹ = 1000000/2000001` — so `resample()` does not recompute
`K_mm` from the layer's current kernel, refuting the claim. -/
theorem C3_resample_uses_captured_gram :
    ((DeepGaussianProcessDecoupledLayer.resample cholId actId pStale sStale
        rng0).1.weights_sample.entry 0 1 0 = 1) ∧
    ((DeepGaussianProcessDecoupledLayer.resample cholId actId pStale
        { sStale with weight_sampler := prepare_weight_sampler pStale 1 }
        rng0).1.weights_sample.entry 0 1 0 = 1000000 / 2000001) ∧
    ((1 : ℚ) ≠ 1000000 / 2000001) ∧
    ((prepare_weight_sampler pStale 1).Kmm.entry 0 0 ≠ sStale.weight_sampler.Kmm.entry 0 0) := by
  refine ⟨?_, ?_, by norm_num, ?_⟩
  · simp [DeepGaussianProcessDecoupledLayer.resample, weight_sampler_call, concatAxis1,
      priorDraw, noiseDraw, RNG.normal3, RNG.advance, rng0, sStale, wsCaptured, pStale, fs0,
      uSample, phiZmat, featureFunctionsCall, concatCols, rffEval, transposeT2,
      GPLayerData.gram, actId, cholId, Finset.sum_range_one, compute_A_inv_b_entry_one]
  · simp [DeepGaussianProcessDecoupledLayer.resample, weight_sampler_call, concatAxis1,
      priorDraw, noiseDraw, RNG.normal3, RNG.advance, rng0, sStale, wsCaptured, pStale, fs0,
      uSample, phiZmat, featureFunctionsCall, concatCols, rffEval, transposeT2,
      GPLayerData.gram, actId, cholId, Finset.sum_range_one, compute_A_inv_b_entry_one,
      prepare_weight_sampler, addT2, scaleT2, eyeT2, JITTER]
    norm_num
  · simp [prepare_weight_sampler, addT2, scaleT2, eyeT2, JITTER, GPLayerData.gram,
      pStale, sStale, wsCaptured]
    norm_num

/-- C4 (confirmed): the first call on an uninitialized layer sampler with an
`[N, B, D]` input fixes `B = x.n2` as the sampler's batch size and marks it
initialized; once initialized, a call whose input has a different batch
dimension fails with the `ShapeMismatch` condition and produces no output,
while a call with the fixed batch dimension succeeds and changes nothing;
and neither `resample()` nor `update()` changes the fixed batch size or the
initialization flag. -/
theorem C4_batch_size_fixed_for_lifetime (chol : Tensor2 → Tensor2) (act : ℚ → ℚ)
    (p : GPLayerData) (s : DeepGaussianProcessDecoupledLayer) (x : Tensor3) (rng : RNG) :
    (s.initialized = false →
      (callState (DeepGaussianProcessDecoupledLayer.call chol act p s x rng)).map
          (fun t => (t.batch_size, t.initialized)) = some (x.n2, true)) ∧
    (s.initialized = true → x.n2 ≠ s.batch_size →
      DeepGaussianProcessDecoupledLayer.call chol act p s x rng = .error .shapeMismatch) ∧
    (s.initialized = true → x.n2 = s.batch_size →
      DeepGaussianProcessDecoupledLayer.call chol act p s x rng
        = .ok (layerOutput act p s x, s, rng)) ∧
    ((DeepGaussianProcessDecoupledLayer.resample chol act p s rng).1.batch_size
        = s.batch_size) ∧
    ((DeepGaussianProcessDecoupledLayer.update chol act p s rng).1.batch_size
        = s.batch_size) ∧
    ((DeepGaussianProcessDecoupledLayer.resample chol act p s rng).1.initialized
        = s.initialized) ∧
    ((DeepGaussianProcessDecoupledLayer.update chol act p s rng).1.initialized
        = s.initialized) := by
  refine ⟨?_, ?_, ?_, rfl, rfl, rfl, rfl⟩
  · intro h
    simp [DeepGaussianProcessDecoupledLayer.call, DeepGaussianProcessDecoupledLayer.step1,
      DeepGaussianProcessDecoupledLayer.resample, callState, h]
  · intro h hne
    simp [DeepGaussianProcessDecoupledLayer.call, DeepGaussianProcessDecoupledLayer.step1,
      h, hne]
  · intro h he
    simp [DeepGaussianProcessDecoupledLayer.call, DeepGaussianProcessDecoupledLayer.step1,
      h, he]

/-- Witness for C4: the first call on a freshly built layer sampler with a
batch-1 input fixes batch size 1, and a call with a batch-2 input on the
initialized sampler `sInit` (batch size 1) fails with `ShapeMismatch`. -/
theorem C4_witness :
    ((callState (DeepGaussianProcessDecoupledLayer.call cholId actId p0
        (mkGPDecoupledLayer p0 1 rng0).1 x0 rng0)).map
          (fun t => (t.batch_size, t.initialized)) = some (x0.n2, true)) ∧
    (DeepGaussianProcessDecoupledLayer.call cholId actId p0 sInit x2 rng0
        = .error .shapeMismatch) :=
  ⟨(C4_batch_size_fixed_for_lifetime cholId actId p0 (mkGPDecoupledLayer p0 1 rng0).1
      x0 rng0).1 rfl,
   (C4_batch_size_fixed_for_lifetime cholId actId p0 sInit x2 rng0).2.1 rfl (by decide)⟩

/-- C10 (confirmed): on a freshly constructed (never evaluated) layer
sampler, `resample()` and `update()` succeed: they draw a weight tensor
whose batch dimension is `0` (the batch-size variable's initial value) and
leave the sampler uninitialized, so the first subsequent evaluation still
fixes the batch size from its input and redraws the weights (whose batch
dimension then equals the input's batch dimension). -/
theorem C10_resample_before_first_evaluation (chol : Tensor2 → Tensor2) (act : ℚ → ℚ)
    (p : GPLayerData) (L : ℕ) (rng rng2 rng3 : RNG) (x : Tensor3) :
    ((mkGPDecoupledLayer p L rng).1.initialized = false) ∧
    ((mkGPDecoupledLayer p L rng).1.batch_size = 0) ∧
    (mkDecoupledLayer (.gp p) L rng = .ok (mkGPDecoupledLayer p L rng)) ∧
    ((DeepGaussianProcessDecoupledLayer.resample chol act p (mkGPDecoupledLayer p L rng).1
        rng2).1.weights_sample.n1 = 0) ∧
    ((DeepGaussianProcessDecoupledLayer.resample chol act p (mkGPDecoupledLayer p L rng).1
        rng2).1.initialized = false) ∧
    ((DeepGaussianProcessDecoupledLayer.update chol act p (mkGPDecoupledLayer p L rng).1
        rng2).1.weights_sample.n1 = 0) ∧
    ((DeepGaussianProcessDecoupledLayer.update chol act p (mkGPDecoupledLayer p L rng).1
        rng2).1.initialized = false) ∧
    ((callState (DeepGaussianProcessDecoupledLayer.call chol act p
        (DeepGaussianProcessDecoupledLayer.resample chol act p (mkGPDecoupledLayer p L rng).1
          rng2).1 x rng3)).map
        (fun t => (t.batch_size, t.initialized, t.weights_sample.n1))
      = some (x.n2, true, x.n2)) := by
  refine ⟨rfl, rfl, rfl, rfl, rfl, rfl, rfl, ?_⟩
  simp [DeepGaussianProcessDecoupledLayer.call, DeepGaussianProcessDecoupledLayer.step1,
    DeepGaussianProcessDecoupledLayer.resample, mkGPDecoupledLayer, callState,
    weight_sampler_call, concatAxis1, priorDraw, noiseDraw, RNG.normal3]

theorem trajectory_update_go_length (chol : Tensor2 → Tensor2) (act : ℚ → ℚ)
    (ps : List GPLayerData) :
    ∀ (ss : List DeepGaussianProcessDecoupledLayer) (rng : RNG),
      (trajectory_update_go chol act ps ss rng).1.length = min ps.length ss.length := by
  induction ps with
  | nil => intro ss rng; simp [trajectory_update_go]
  | cons p ps ih =>
    intro ss rng
    cases ss with
    | nil => simp [trajectory_update_go]
    | cons s ss => simp [trajectory_update_go, ih, Nat.succ_min_succ]

theorem trajectory_resample_go_length (chol : Tensor2 → Tensor2) (act : ℚ → ℚ)
    (ps : List GPLayerData) :
    ∀ (ss : List DeepGaussianProcessDecoupledLayer) (rng : RNG),
      (trajectory_resample_go chol act ps ss rng).1.length = min ps.length ss.length := by
  induction ps with
  | nil => intro ss rng; simp [trajectory_resample_go]
  | cons p ps ih =>
    intro ss rng
    cases ss with
    | nil => simp [trajectory_resample_go]
    | cons s ss => simp [trajectory_resample_go, ih, Nat.succ_min_succ]

/-- C6 (confirmed): `update_trajectory` and `resample_trajectory` applied to
an instance of the manager's composition type return that very trajectory,
mutated in place — the `ok` result is the fan-out of the per-layer
`update`/`resample` over the argument's own layer list (head updated in
place, tail threaded, length preserved), not a rebuilt trajectory — and
applied to any argument that is not an instance of the composition type they
fail with the `TypeMismatch` condition and mutate nothing. -/
theorem C6_trajectory_ops_identity_and_type_check (chol : Tensor2 → Tensor2) (act : ℚ → ℚ)
    (ps : List GPLayerData) (ss : List DeepGaussianProcessDecoupledLayer) (rng : RNG) :
    (update_trajectory chol act ps (.decoupled ss) rng
        = .ok (.decoupled (trajectory_update_go chol act ps ss rng).1,
               (trajectory_update_go chol act ps ss rng).2)) ∧
    (resample_trajectory chol act ps (.decoupled ss) rng
        = .ok (.decoupled (trajectory_resample_go chol act ps ss rng).1,
               (trajectory_resample_go chol act ps ss rng).2)) ∧
    ((trajectory_update_go chol act ps ss rng).1.length = min ps.length ss.length) ∧
    ((trajectory_resample_go chol act ps ss rng).1.length = min ps.length ss.length) ∧
    (∀ (p : GPLayerData) (ps' : List GPLayerData) (s : DeepGaussianProcessDecoupledLayer)
        (ss' : List DeepGaussianProcessDecoupledLayer),
      trajectory_update_go chol act (p :: ps') (s :: ss') rng
        = ((DeepGaussianProcessDecoupledLayer.update chol act p s rng).1 ::
            (trajectory_update_go chol act ps' ss'
              (DeepGaussianProcessDecoupledLayer.update chol act p s rng).2).1,
           (trajectory_update_go chol act ps' ss'
              (DeepGaussianProcessDecoupledLayer.update chol act p s rng).2).2)) ∧
    (∀ (p : GPLayerData) (ps' : List GPLayerData) (s : DeepGaussianProcessDecoupledLayer)
        (ss' : List DeepGaussianProcessDecoupledLayer),
      trajectory_resample_go chol act (p :: ps') (s :: ss') rng
        = ((DeepGaussianProcessDecoupledLayer.resample chol act p s rng).1 ::
            (trajectory_resample_go chol act ps' ss'
              (DeepGaussianProcessDecoupledLayer.resample chol act p s rng).2).1,
           (trajectory_resample_go chol act ps' ss'
              (DeepGaussianProcessDecoupledLayer.resample chol act p s rng).2).2)) ∧
    (update_trajectory chol act ps .otherFunction rng = .error .typeMismatch) ∧
    (resample_trajectory chol act ps .otherFunction rng = .error .typeMismatch) :=
  ⟨rfl, rfl, trajectory_update_go_length chol act ps ss rng,
   trajectory_resample_go_length chol act ps ss rng,
   fun _ _ _ _ => rfl, fun _ _ _ _ => rfl, rfl, rfl⟩

theorem mkSamplingLayers_unsupported (L : ℕ) (ls : List FLayer) :
    ∀ rng : RNG, (∃ l ∈ ls, l.isGP = false) →
      mkSamplingLayers L ls rng = .error .unsupported := by
  induction ls with
  | nil => intro rng h; simp at h
  | cons l ls ih =>
    intro rng h
    cases l with
    | gp p =>
      have htail : ∃ m ∈ ls, FLayer.isGP m = false := by
        obtain ⟨l', hl', hgp⟩ := h
        rcases List.mem_cons.mp hl' with h1 | h1
        · subst h1; simp [FLayer.isGP] at hgp
        · exact ⟨l', h1, hgp⟩
      simp only [mkSamplingLayers, mkDecoupledLayer]
      rw [ih _ htail]
    | latentVariable f => rfl
    | otherLayer => rfl

/-- C5 (confirmed): constructing the decoupled trajectory sampler over a
model in which at least one layer is not a plain GP layer fails at
construction time with the `Unsupported` condition (given the positive
feature count the constructor asserts first), before any trajectory is
built or any sampling call is made. -/
theorem C5_construction_rejects_unsupported_layers (model : List FLayer)
    (num_features : ℕ) (rng : RNG) (hpos : num_features ≠ 0)
    (h : ∃ l ∈ model, l.isGP = false) :
    mkDecoupledTrajectorySampler model num_features rng = .error .unsupported := by
  rw [mkDecoupledTrajectorySampler, if_neg hpos,
    mkSamplingLayers_unsupported num_features model rng h]

/-- Witness for C5: a two-layer model whose second layer is a
latent-variable layer is rejected with `Unsupported`. -/
theorem C5_witness :
    mkDecoupledTrajectorySampler [FLayer.gp p0, FLayer.latentVariable id] 2 rng0
      = .error .unsupported :=
  C5_construction_rejects_unsupported_layers [FLayer.gp p0, FLayer.latentVariable id] 2 rng0
    (by decide)
    ⟨FLayer.latentVariable id, List.mem_cons_of_mem _ (List.mem_cons_self _ _), rfl⟩

theorem step1_result_initialized (chol : Tensor2 → Tensor2) (act : ℚ → ℚ)
    (p : GPLayerData) (s : DeepGaussianProcessDecoupledLayer) (x : Tensor3) (rng : RNG) :
    (DeepGaussianProcessDecoupledLayer.step1 chol act p s x rng).1.initialized = true := by
  by_cases hi : s.initialized
  · simp [DeepGaussianProcessDecoupledLayer.step1, hi]
  · simp [DeepGaussianProcessDecoupledLayer.step1, hi,
      DeepGaussianProcessDecoupledLayer.resample]

theorem step1_of_initialized (chol : Tensor2 → Tensor2) (act : ℚ → ℚ) (p : GPLayerData)
    (s : DeepGaussianProcessDecoupledLayer) (x : Tensor3) (rng : RNG)
    (h : s.initialized = true) :
    DeepGaussianProcessDecoupledLayer.step1 chol act p s x rng = (s, rng) := by
  simp [DeepGaussianProcessDecoupledLayer.step1, h]

theorem call_replays (chol : Tensor2 → Tensor2) (act : ℚ → ℚ) (p : GPLayerData)
    (s : DeepGaussianProcessDecoupledLayer) (x : Tensor3) (rng : RNG) (out : Tensor3)
    (s' : DeepGaussianProcessDecoupledLayer) (r' : RNG)
    (h : DeepGaussianProcessDecoupledLayer.call chol act p s x rng = .ok (out, s', r'))
    (r : RNG) :
    DeepGaussianProcessDecoupledLayer.call chol act p s' x r = .ok (out, s', r) := by
  unfold DeepGaussianProcessDecoupledLayer.call at h ⊢
  by_cases hg : x.n2 = (DeepGaussianProcessDecoupledLayer.step1 chol act p s x rng).1.batch_size
  · rw [if_pos hg] at h
    simp only [Except.ok.injEq, Prod.mk.injEq] at h
    obtain ⟨h1, h2, h3⟩ := h
    subst h1; subst h2
    rw [step1_of_initialized chol act p _ x r (step1_result_initialized chol act p s x rng)]
    simp [hg]
  · rw [if_neg hg] at h
    exact Except.noConfusion h

theorem trajectory_go_replays (chol : Tensor2 → Tensor2) (act : ℚ → ℚ)
    (ps : List GPLayerData) :
    ∀ (ss : List DeepGaussianProcessDecoupledLayer) (x : Tensor3) (rng : RNG)
      (y : Tensor3) (ss' : List DeepGaussianProcessDecoupledLayer) (r' : RNG),
      trajectory_go chol act ps ss x rng = .ok (y, ss', r') →
      ∀ r : RNG, trajectory_go chol act ps ss' x r = .ok (y, ss', r) := by
  induction ps with
  | nil =>
    intro ss x rng y ss' r' h r
    simp only [trajectory_go, Except.ok.injEq, Prod.mk.injEq] at h
    obtain ⟨h1, h2, h3⟩ := h
    subst h1; subst h2
    rfl
  | cons p ps ih =>
    intro ss x rng y ss' r' h r
    cases ss with
    | nil =>
      simp only [trajectory_go, Except.ok.injEq, Prod.mk.injEq] at h
      obtain ⟨h1, h2, h3⟩ := h
      subst h1; subst h2
      rfl
    | cons s ss =>
      cases hc : DeepGaussianProcessDecoupledLayer.call chol act p s x rng with
      | error e =>
        simp only [trajectory_go, hc] at h
        exact Except.noConfusion h
      | ok w =>
        simp only [trajectory_go, hc] at h
        cases hr : trajectory_go chol act ps ss w.1 w.2.2 with
        | error e =>
          simp only [trajectory_go, hc, hr] at h
          exact Except.noConfusion h
        | ok z =>
          simp only [trajectory_go, hc, hr, Except.ok.injEq, Prod.mk.injEq] at h
          obtain ⟨h1, h2, h3⟩ := h
          subst h1; subst h2; subst h3
          simp only [trajectory_go,
            call_replays chol act p s x rng w.1 w.2.1 w.2.2 hc r,
            ih ss w.1 w.2.2 z.1 z.2.1 z.2.2 hr r]

/-- C7 (confirmed): a fixed draw is deterministic — if one evaluation of a
trajectory on input `x` succeeds, evaluating the resulting (initialized)
trajectory again on the same `x`, with no `resample()` or `update()` in
between and at any random state, returns the identical output, leaves every
layer's state unchanged and consumes no randomness. -/
theorem C7_fixed_draw_deterministic (chol : Tensor2 → Tensor2) (act : ℚ → ℚ)
    (ps : List GPLayerData) (ss : List DeepGaussianProcessDecoupledLayer) (x : Tensor3)
    (rng : RNG) (y : Tensor2) (ss' : List DeepGaussianProcessDecoupledLayer) (r' : RNG)
    (h : dgp_feature_decomposition_trajectory_call chol act ps ss x rng = .ok (y, ss', r'))
    (r : RNG) :
    dgp_feature_decomposition_trajectory_call chol act ps ss' x r = .ok (y, ss', r) := by
  unfold dgp_feature_decomposition_trajectory_call at h ⊢
  cases hg : trajectory_go chol act ps ss x rng with
  | error e => rw [hg] at h; exact Except.noConfusion h
  | ok z =>
    simp only [hg, Except.ok.injEq, Prod.mk.injEq] at h
    obtain ⟨h1, h2, h3⟩ := h
    subst h1; subst h2; subst h3
    simp only [trajectory_go_replays chol act ps ss x rng z.1 z.2.1 z.2.2 hg r]

/-- Witness for C7: one evaluation of a single-layer trajectory over `p0`
with the initialized sampler `sInit` succeeds, and replaying it on its own
result state reproduces the identical output and state. -/
theorem C7_witness : ∃ (y : Tensor2) (ss' : List DeepGaussianProcessDecoupledLayer) (r' : RNG),
    dgp_feature_decomposition_trajectory_call cholId actId [p0] [sInit] x0 rng0
      = .ok (y, ss', r') ∧
    dgp_feature_decomposition_trajectory_call cholId actId [p0] ss' x0 r'
      = .ok (y, ss', r') :=
  ⟨_, _, _, rfl,
    C7_fixed_draw_deterministic cholId actId [p0] [sInit] x0 rng0 _ _ _ rfl _⟩

/-- C9 (counterexample): a two-layer model in which the query points'
trailing dimension (2) matches the first GP layer's inducing points but not
the second GP layer's (`pB.Z.n2 = 3`, matching the first layer's output
dimension instead).  `update` succeeds, refuting "fails whenever the
trailing dimension of the new query points does not match the trailing
dimension of a GP layer's inducing points". -/
theorem C9_counterexample_update_succeeds :
    (deepGaussianProcess_update [FLayer.gp pA, FLayer.gp pB] dsC = .ok ()) ∧
    (dsC.query_points.n2 ≠ pB.Z.n2) ∧
    (FLayer.gp pB ∈ [FLayer.gp pA, FLayer.gp pB]) :=
  ⟨rfl, by decide, List.mem_cons_of_mem _ (List.mem_cons_self _ _)⟩

/-- C9 (amended): for a model of GP and latent-variable layers,
`DeepGaussianProcess.update`'s shape-checking loop succeeds exactly when the
input dimension *as propagated through the preceding layers* (the query
points' trailing dimension for the first layer) matches every GP layer's
inducing-point trailing dimension and, when the final layer is a GP layer,
the observations' trailing dimension matches its `q_mu`'s; every failure is
the `ShapeMismatch` condition, raised at the first mismatching layer. -/
theorem C9_update_shape_checks (layers : List FLayer) :
    ∀ (obsDim d : ℕ), layers.all (fun l => !l.isOther) = true →
      ((deepGaussianProcessUpdateGo obsDim layers d = .ok () ↔ ShapesOk obsDim layers d) ∧
       (deepGaussianProcessUpdateGo obsDim layers d = .ok () ∨
        deepGaussianProcessUpdateGo obsDim layers d = .error .shapeMismatch)) := by
  induction layers with
  | nil =>
    intro obsDim d _
    exact ⟨⟨fun _ => ShapesOk.nil d, fun _ => rfl⟩, Or.inl rfl⟩
  | cons l rest ih =>
    intro obsDim d hno
    rw [List.all_cons, Bool.and_eq_true] at hno
    obtain ⟨hl, hrest⟩ := hno
    cases l with
    | latentVariable f =>
      have ihh := ih obsDim (f d) hrest
      refine ⟨⟨fun hok => ShapesOk.lv f rest d (ihh.1.mp hok), fun hs => ?_⟩, ihh.2⟩
      cases hs with
      | lv _ _ _ htail => exact ihh.1.mpr htail
    | otherLayer => simp [FLayer.isOther] at hl
    | gp p =>
      by_cases hd : d = p.Z.n2
      · have hne : ¬ d ≠ p.Z.n2 := fun hc => hc hd
        cases rest with
        | nil =>
          by_cases hob : obsDim = p.q_mu.n2
          · have hgo : deepGaussianProcessUpdateGo obsDim [FLayer.gp p] d = .ok () := by
              simp only [deepGaussianProcessUpdateGo]
              rw [if_neg hne, if_neg (fun hc => hc.2 hob)]
            exact ⟨⟨fun _ => ShapesOk.gpLast p d hd hob, fun _ => hgo⟩, Or.inl hgo⟩
          · have hgo : deepGaussianProcessUpdateGo obsDim [FLayer.gp p] d
                = .error .shapeMismatch := by
              simp only [deepGaussianProcessUpdateGo]
              rw [if_neg hne, if_pos ⟨rfl, hob⟩]
            refine ⟨⟨fun hok => absurd (hgo.symm.trans hok) (by simp),
              fun hs => ?_⟩, Or.inr hgo⟩
            cases hs with
            | gpLast _ _ _ h2 => exact absurd h2 hob
        | cons l2 rest2 =>
          have hcond : ¬ ((l2 :: rest2).isEmpty = true ∧ obsDim ≠ p.q_mu.n2) :=
            fun hc => absurd hc.1 (by simp)
          have hgo : deepGaussianProcessUpdateGo obsDim (FLayer.gp p :: l2 :: rest2) d
              = deepGaussianProcessUpdateGo obsDim (l2 :: rest2) p.q_mu.n2 := by
            simp only [deepGaussianProcessUpdateGo]
            rw [if_neg hne, if_neg hcond]
          have ihh := ih obsDim p.q_mu.n2 hrest
          refine ⟨⟨fun hok => ShapesOk.gpCons p l2 rest2 d hd (ihh.1.mp (hgo ▸ hok)),
            fun hs => ?_⟩, by rw [hgo]; exact ihh.2⟩
          cases hs with
          | gpCons _ _ _ _ _ htail => rw [hgo]; exact ihh.1.mpr htail
      · have hgo : deepGaussianProcessUpdateGo obsDim (FLayer.gp p :: rest) d
            = .error .shapeMismatch := by
          simp only [deepGaussianProcessUpdateGo]
          rw [if_pos hd]
        refine ⟨⟨fun hok => absurd (hgo.symm.trans hok) (by simp), fun hs => ?_⟩, Or.inr hgo⟩
        cases hs with
        | gpLast _ _ h1 _ => exact absurd h1 hd
        | gpCons _ _ _ _ h1 _ => exact absurd h1 hd

/-- Witness for C9's amended theorem: the concrete two-layer model of the
counterexample is accepted, so its propagated dimensions satisfy the
spec-side predicate. -/
theorem C9_update_shape_checks_witness : ShapesOk 3 [FLayer.gp pA, FLayer.gp pB] 2 :=
  ((C9_update_shape_checks [FLayer.gp pA, FLayer.gp pB] 3 2 rfl).1).mp rfl

theorem weight_sampler_call_v_entry (chol : Tensor2 → Tensor2) (act : ℚ → ℚ)
    (c : WeightSampler) (p : GPLayerData) (fs : FeatureFunctionsState) (B : ℕ) (rng : RNG)
    (b m q : ℕ) :
    (weight_sampler_call chol act c p fs B rng).1.entry b (c.L + m) q
      = (compute_A_inv_b c.Kmm (matheronDiffSlice chol act c p fs B rng b)).entry m q :=
  concatAxis1_entry_ge _ _ b m q

theorem weight_sampler_call_solves (chol : Tensor2 → Tensor2) (act : ℚ → ℚ)
    (c : WeightSampler) (p : GPLayerData) (fs : FeatureFunctionsState) (B : ℕ) (rng : RNG)
    (b : ℕ) (hdet : (toMat c.Kmm.n1 c.Kmm.n1 c.Kmm).det ≠ 0) :
    toMat c.Kmm.n1 c.Kmm.n1 c.Kmm
        * toMat c.Kmm.n1 c.P (⟨c.Kmm.n1, c.P, fun m q =>
            (weight_sampler_call chol act c p fs B rng).1.entry b (c.L + m) q⟩ : Tensor2)
      = toMat c.Kmm.n1 c.P (matheronDiffSlice chol act c p fs B rng b) := by
  have e1 : toMat c.Kmm.n1 c.P (⟨c.Kmm.n1, c.P, fun m q =>
        (weight_sampler_call chol act c p fs B rng).1.entry b (c.L + m) q⟩ : Tensor2)
      = toMat c.Kmm.n1 c.P (compute_A_inv_b c.Kmm (matheronDiffSlice chol act c p fs B rng b)) := by
    ext i j
    simp only [toMat, Matrix.of_apply]
    exact weight_sampler_call_v_entry chol act c p fs B rng b i j
  rw [e1]
  exact compute_A_inv_b_spec c.Kmm (matheronDiffSlice chol act c p fs B rng b) hdet

theorem sum_range_fin (n : ℕ) (f : ℕ → ℚ) :
    (Finset.range n).sum f = ∑ x : Fin n, f x :=
  (Fin.sum_univ_eq_sum_range f n).symm

/-- C2 (confirmed): for a layer whose weight sampler was prepared from its
current parameters (`q_mu` of shape `[M, P]` over `M` inducing points, Gram
matrix invertible after jitter), one weight-sampler call at batch size `B`
satisfies `matheronSpec`: it returns the `[B, L+M, P]` concatenation, along
the feature axis, of the fresh standard-normal prior draw `[B, L, P]` with
the Matheron correction `v` solving `K_mm · v = u − Φ(Z)·prior`, where
`u = q_mu + q_sqrt·noise` is left-multiplied by the Cholesky factor of
`K_mm` exactly when the layer is whitened, and
`K_mm = K(Z,Z) + jitter·I`. -/
theorem C2_weight_sampler_matheron (chol : Tensor2 → Tensor2) (act : ℚ → ℚ)
    (p : GPLayerData) (fs : FeatureFunctionsState) (B L : ℕ) (rng : RNG)
    (hM : p.q_mu.n1 = p.Z.n1)
    (hdet : (toMat p.Z.n1 p.Z.n1 (prepare_weight_sampler p L).Kmm).det ≠ 0) :
    matheronSpec chol act p fs B L rng := by
  have hMM : (prepare_weight_sampler p L).M = p.Z.n1 := hM
  simp only [matheronSpec]
  refine ⟨rfl, ?_, rfl, ?_, fun b l q => rfl, ?_, ?_, ?_, rfl, rfl, ?_⟩
  · show L + p.q_mu.n1 = L + p.Z.n1
    rw [hM]
  · intro b l q hl
    exact concatAxis1_entry_lt _ _ b l q hl
  · intro b
    have h1 := weight_sampler_call_solves chol act (prepare_weight_sampler p L) p fs B rng b hdet
    have h2 : toMat p.Z.n1 p.q_mu.n2
        (matheronDiffSlice chol act (prepare_weight_sampler p L) p fs B rng b)
        = toMat p.Z.n1 p.q_mu.n2 (⟨p.Z.n1, p.q_mu.n2, fun m q =>
            (uSample chol (prepare_weight_sampler p L) p
              (noiseDraw (prepare_weight_sampler p L) B
                (priorDraw (prepare_weight_sampler p L) B rng).2).1 B).entry b m q⟩ : Tensor2)
          - toMat p.Z.n1 L (phiZmat act (prepare_weight_sampler p L) p fs)
            * toMat L p.q_mu.n2 (⟨L, p.q_mu.n2, fun l q =>
                (priorDraw (prepare_weight_sampler p L) B rng).1.entry b l q⟩ : Tensor2) := by
      ext i j
      simp only [toMat, Matrix.of_apply, Matrix.sub_apply, Matrix.mul_apply, matheronDiffSlice]
      rw [sum_range_fin]
      exact rfl
    exact h1.trans h2
  · intro hw b m q
    have hcw : (prepare_weight_sampler p L).whiten = false := hw
    simp [uSample, hcw, hMM]
  · intro hw b m q
    have hcw : (prepare_weight_sampler p L).whiten = true := hw
    simp [uSample, hcw, hMM]
  · intro i j
    simp [prepare_weight_sampler, addT2, scaleT2, eyeT2, GPLayerData.gram,
      mul_ite, mul_one, mul_zero]

/-- Witness for C2: the Matheron contract holds at the concrete layer `p0`
(whose jittered 1×1 Gram matrix `[1 + 10⁻⁶]` is invertible), batch size 1
and feature count 1. -/
theorem C2_witness : matheronSpec cholId actId p0 fs0 1 1 rng0 :=
  C2_weight_sampler_matheron cholId actId p0 fs0 1 1 rng0 rfl (by
    show (toMat 1 1 (prepare_weight_sampler p0 1).Kmm).det ≠ 0
    rw [Matrix.det_fin_one]
    norm_num [toMat, prepare_weight_sampler, addT2, scaleT2, eyeT2, GPLayerData.gram, p0, JITTER])
